import Mathlib

/-!
Verification of `face_detection.py`: a shallow embedding of the program's
data model, drawing pipeline, and main capture loop, with theorems settling
the specification's claims.

Modelling conventions:
* A `Pixel` is the list of its channel values (the source stores frames as
  numpy arrays of shape (height, width, 3) in BGR channel order); an `Image`
  is a list of rows, each row a list of pixels.
* OpenCV drawing primitives (`cv2.circle`, `cv2.rectangle`, `cv2.putText`)
  mutate the image in place; here each call is reified as a `DrawCmd` and
  applied functionally by `applyCmd`.  The exact rasterization of circle
  boundaries, line bands, and text glyphs lives inside OpenCV, not in this
  repository; the models below are dimension-preserving in-bounds pixel
  updates with the natural geometric footprint (text glyph shapes are not
  modelled at the pixel level, as no claim depends on them).
* The main loop's interactions with the camera, the detector library and the
  display are reified as a trace of `Event`s driven by a finite script of
  per-iteration external inputs (`IterInput`).
-/

/-- A pixel: the list of its (three, 8-bit) channel values. -/
abbrev Pixel := List Nat

/-- An image: a list of rows, each row a list of pixels. -/
abbrev Image := List (List Pixel)

/-- An OpenCV color tuple (B, G, R), as passed to the drawing calls. -/
abbrev Color := Nat × Nat × Nat

/-- A 2D point (x, y) in pixel coordinates, as passed to `cv2.circle`. -/
abbrev Point := Int × Int

/-- The channel values a color writes into a pixel. -/
def Color.toPixel (c : Color) : Pixel := [c.1, c.2.1, c.2.2]

/-- `FEATURE_COLORS` from the source: a static mapping (Python dict,
insertion-ordered) from feature-group name to a fixed BGR color. -/
def FEATURE_COLORS : List (String × Color) :=
  [("chin", (255, 0, 0)),
   ("left_eyebrow", (0, 255, 0)),
   ("right_eyebrow", (0, 255, 255)),
   ("nose_bridge", (255, 255, 0)),
   ("nose_tip", (255, 0, 255)),
   ("left_eye", (0, 0, 255)),
   ("right_eye", (255, 128, 0)),
   ("top_lip", (128, 0, 128)),
   ("bottom_lip", (0, 128, 128))]

/-- `FEATURE_COLORS.get(feature, (200, 200, 200))` from the source:
dictionary lookup with the fallback gray. -/
def featureColorGet (feature : String) : Color :=
  (FEATURE_COLORS.lookup feature).getD (200, 200, 200)

/-- `cv2.FONT_HERSHEY_SIMPLEX` (an opaque OpenCV font id; its numeric value
in OpenCV is 0). -/
def FONT_HERSHEY_SIMPLEX : Nat := 0

/-- A reified OpenCV drawing call, recording exactly the arguments the
source passes. Thickness `-1` means filled. -/
inductive DrawCmd where
  | circle (center : Point) (radius : Int) (color : Color) (thickness : Int)
  | rectangle (pt1 pt2 : Point) (color : Color) (thickness : Int)
  | putText (text : String) (org : Point) (fontFace : Nat) (fontScale : ℚ)
      (color : Color) (thickness : Int)
deriving DecidableEq

/-- Map a function over a list together with the element's index, starting
at `i`. -/
def mapFromIdx (f : Nat → α → β) : Nat → List α → List β
  | _, [] => []
  | i, a :: as => f i a :: mapFromIdx f (i + 1) as

/-- Apply a coordinate-indexed pixel update to every in-bounds pixel of an
image (row index `y`, column index `x`). -/
def modifyPixels (f : Nat → Nat → Pixel → Pixel) (img : Image) : Image :=
  mapFromIdx (fun y row => mapFromIdx (fun x px => f y x px) 0 row) 0 img

/-- Whether pixel (x, y) lies in the filled disc of radius `r` about
(cx, cy): the natural geometric footprint of `cv2.circle` with
thickness `-1` (OpenCV's exact boundary rasterization is external). -/
def inDisc (cx cy r : Int) (x y : Nat) : Prop :=
  ((x : Int) - cx) ^ 2 + ((y : Int) - cy) ^ 2 ≤ r ^ 2

instance (cx cy r : Int) (x y : Nat) : Decidable (inDisc cx cy r x y) := by
  unfold inDisc; infer_instance

/-- Whether pixel (x, y) lies on the outline band of the axis-aligned
rectangle (x1, y1)-(x2, y2) drawn with thickness `t` (filled when `t < 0`);
modelled as the inner band of width `t` (OpenCV's exact line rasterization
is external). -/
def onRectBand (x1 y1 x2 y2 t : Int) (x y : Nat) : Prop :=
  x1 ≤ (x : Int) ∧ (x : Int) ≤ x2 ∧ y1 ≤ (y : Int) ∧ (y : Int) ≤ y2 ∧
  (t < 0 ∨ (x : Int) < x1 + t ∨ x2 - t < (x : Int) ∨
    (y : Int) < y1 + t ∨ y2 - t < (y : Int))

instance (x1 y1 x2 y2 t : Int) (x y : Nat) :
    Decidable (onRectBand x1 y1 x2 y2 t x y) := by
  unfold onRectBand; infer_instance

/-- Apply one reified OpenCV drawing call to an image.  Text glyph
rasterization is internal to OpenCV and not modelled at the pixel level
(`putText` is dimension-preserving and no claim constrains its pixels). -/
def applyCmd (img : Image) : DrawCmd → Image
  | .circle (cx, cy) r c _ =>
      modifyPixels (fun y x px => if inDisc cx cy r x y then c.toPixel else px) img
  | .rectangle (x1, y1) (x2, y2) c t =>
      modifyPixels (fun y x px => if onRectBand x1 y1 x2 y2 t x y then c.toPixel else px) img
  | .putText _ _ _ _ _ _ => img

/-- Apply a sequence of drawing calls left to right (the source issues them
sequentially, each mutating the frame in place). -/
def applyCmds (img : Image) (cmds : List DrawCmd) : Image :=
  cmds.foldl applyCmd img

/-- `cv2.flip(frame, 1)`: horizontal mirror, reversing every row. -/
def cvFlip1 (img : Image) : Image := img.map List.reverse

/-- `frame[:, :, ::-1]`: reverse the channel order of every pixel
(BGR to RGB). -/
def bgrToRgb (img : Image) : Image := img.map (List.map List.reverse)

/-- `np.hstack((a, b))`: horizontal concatenation, row by row (numpy
requires both images to have the same height). -/
def npHstack (a b : Image) : Image := List.zipWith (fun l r => l ++ r) a b

/-- A detected face bounding box, in the detector's (top, right, bottom,
left) coordinate convention. -/
structure FaceBox where
  top : Int
  right : Int
  bottom : Int
  left : Int
deriving DecidableEq

/-- The `padding = 20` constant of the source's box-drawing loop. -/
def padding : Int := 20

/-- The `(left, top, right, bottom)` values after the source's expansion
and clamping:
`left = max(0, left - padding)`, `top = max(0, top - padding)`,
`right = min(w, right + padding)`, `bottom = min(h, bottom + padding)`. -/
def clampedRect (w h : Int) (b : FaceBox) : FaceBox :=
  { left := max 0 (b.left - padding)
    top := max 0 (b.top - padding)
    right := min w (b.right + padding)
    bottom := min h (b.bottom + padding) }

/-- The rectangle calls the source's box loop issues: for each face box, one
`cv2.rectangle(frame, (left, top), (right, bottom), (0, 150, 0), 2)` with
the padded-and-clamped coordinates. -/
def boxDrawCmds (w h : Int) (faces : List FaceBox) : List DrawCmd :=
  faces.map fun b =>
    let c := clampedRect w h b
    .rectangle (c.left, c.top) (c.right, c.bottom) (0, 150, 0) 2

/-- A landmark set: a mapping (Python dict, as an ordered association list)
from feature-group name to the ordered list of its points. -/
abbrev LandmarkSet := List (String × List Point)

/-- The circle calls `draw_face_landmarks` issues: for every landmark set,
every feature group, every point, one
`cv2.circle(image, point, 2, color, -1)` with the color looked up in
`FEATURE_COLORS` (fallback (200, 200, 200)). -/
def draw_face_landmarks_cmds (face_landmarks_list : List LandmarkSet) : List DrawCmd :=
  face_landmarks_list.flatMap fun landmarks =>
    landmarks.flatMap fun fp =>
      fp.2.map fun point => .circle point 2 (featureColorGet fp.1) (-1)

/-- `draw_face_landmarks(image, face_landmarks_list)`: apply all the circle
calls to the image. -/
def draw_face_landmarks (image : Image) (face_landmarks_list : List LandmarkSet) : Image :=
  applyCmds image (draw_face_landmarks_cmds face_landmarks_list)

/-- The `legend_width = 200` constant of `add_legend_panel`. -/
def legend_width : Nat := 200

/-- `np.ones((height, legend_width, 3), dtype=np.uint8) * 30`: the uniform
dark panel the legend is drawn on. -/
def legendBase (height : Nat) : Image :=
  List.replicate height (List.replicate legend_width [30, 30, 30])

/-- The legend-item drawing calls for the remaining entries, starting at
vertical offset `y` (the source starts at `y_offset = 30` and adds 30 per
entry): a filled circle `cv2.circle(panel, (20, y_offset - 5), 6, color, -1)`
and a label
`cv2.putText(panel, feature, (40, y_offset), FONT_HERSHEY_SIMPLEX, 0.5, color, 1)`. -/
def legendItemCmds : List (String × Color) → Int → List DrawCmd
  | [], _ => []
  | fc :: rest, y =>
      .circle (20, y - 5) 6 fc.2 (-1)
        :: .putText fc.1 (40, y) FONT_HERSHEY_SIMPLEX (1 / 2) fc.2 1
        :: legendItemCmds rest (y + 30)

/-- All drawing calls `add_legend_panel` issues on the panel, in order. -/
def add_legend_panel_cmds : List DrawCmd := legendItemCmds FEATURE_COLORS 30

/-- `add_legend_panel(frame)`: build the dark panel at the frame's height,
draw the legend items on it, and horizontally stack panel and frame
(panel on the left). -/
def add_legend_panel (frame : Image) : Image :=
  let height := frame.length
  let legend_panel := applyCmds (legendBase height) add_legend_panel_cmds
  npHstack legend_panel frame

/-! ## The main capture loop -/

/-- The console messages and window title of the source, verbatim. -/
def warnMsg : String := "Warning: Failed to capture frame."

/-- The startup error message of the source, verbatim. -/
def cameraErrMsg : String := "Error: Cannot access camera."

/-- The `cv2.imshow` window title of the source, verbatim. -/
def windowTitle : String := "Face Detection with Landmarks & Legend"

/-- One observable interaction of the main loop with the outside world. -/
inductive Event where
  | printMsg (s : String)
  | readCall
  | faceLocationsCall (img : Image)
  | faceLandmarksCall (img : Image)
  | imshow (title : String) (img : Image)
  | waitKeyCall
  | releaseCall
  | destroyAllWindowsCall
deriving DecidableEq

/-- The external inputs of one loop iteration: the camera read result
(`none` = capture failure), whether the body raises an unhandled exception
(an error from detection, rendering, or display; modelled as raised at the
start of processing — the claims depend only on its propagation), the two
detector results, and the `cv2.waitKey(1)` return value (`> 0` exits). -/
structure IterInput where
  read : Option Image
  exn : Option String
  faces : List FaceBox
  landmarks : List LandmarkSet
  key : Int
deriving DecidableEq

/-- How the `while True` loop ended: `running` when the finite input script
is exhausted with the loop still live, `keyExit` on a key press, `raised`
on an unhandled exception from the body. -/
inductive LoopOutcome where
  | running
  | keyExit
  | raised (msg : String)
deriving DecidableEq

/-- The `while True` body of `main`, iterated over a finite script of
external inputs: read a frame (on failure print the warning and continue);
mirror it; convert BGR to RGB; call the two detectors on the converted
image; draw the padded-clamped boxes, then the landmarks; attach the legend
panel; show the result; exit if a key was pressed.  Returns the event trace
and how (whether) the loop ended. -/
def runLoop : List IterInput → List Event × LoopOutcome
  | [] => ([], .running)
  | inp :: rest =>
    match inp.read with
    | none =>
        (Event.readCall :: Event.printMsg warnMsg :: (runLoop rest).1, (runLoop rest).2)
    | some f =>
        match inp.exn with
        | some e => ([.readCall], .raised e)
        | none =>
            let frame := cvFlip1 f
            let rgb_frame := bgrToRgb frame
            let h := frame.length
            let w := (frame.headD []).length
            let frame1 := applyCmds frame (boxDrawCmds (w : Int) (h : Int) inp.faces)
            let frame2 := draw_face_landmarks frame1 inp.landmarks
            let output_frame := add_legend_panel frame2
            let evs : List Event :=
              [.readCall, .faceLocationsCall rgb_frame, .faceLandmarksCall rgb_frame,
               .imshow windowTitle output_frame, .waitKeyCall]
            if inp.key > 0 then (evs, .keyExit)
            else (evs ++ (runLoop rest).1, (runLoop rest).2)

/-- How `main` itself ended: a plain `return` (the Python process then
exits with status 0) or an uncaught exception propagating out (the process
then exits with a nonzero status); `stillRunning` when the finite script
ended with the loop still live. -/
inductive MainResult where
  | returned
  | raised (msg : String)
  | stillRunning
deriving DecidableEq

/-- The process exit status `main`'s ending implies: `0` for a plain
return, `1` for an uncaught exception; `none` while still running. -/
def exitCode : MainResult → Option Nat
  | .returned => some 0
  | .raised _ => some 1
  | .stillRunning => none

/-- `main()`: open the camera (`cameraOpened` is whether
`video_capture.isOpened()` holds); on failure print the error and return
without entering the loop.  Otherwise run the loop inside
`try ... finally: video_capture.release(); cv2.destroyAllWindows()` — the
cleanup events follow the loop's trace on both a key-press break and an
unhandled exception, and the exception then propagates. -/
def mainRun (cameraOpened : Bool) (script : List IterInput) : List Event × MainResult :=
  if cameraOpened then
    match (runLoop script).2 with
    | .running => ((runLoop script).1, .stillRunning)
    | .keyExit =>
        ((runLoop script).1 ++ [.releaseCall, .destroyAllWindowsCall], .returned)
    | .raised e =>
        ((runLoop script).1 ++ [.releaseCall, .destroyAllWindowsCall], .raised e)
  else
    ([.printMsg cameraErrMsg], .returned)

/-! ## Helper lemmas -/

theorem lookup_of_mem_of_nodup {l : List (String × Color)} {a : String} {b : Color}
    (nd : (l.map Prod.fst).Nodup) (h : (a, b) ∈ l) : l.lookup a = some b := by
  induction l with
  | nil => cases h
  | cons p rest ih =>
    obtain ⟨p1, p2⟩ := p
    rw [List.map_cons, List.nodup_cons] at nd
    rw [List.mem_cons] at h
    rcases h with h | h
    · rw [Prod.mk.injEq] at h
      obtain ⟨rfl, rfl⟩ := h
      simp [List.lookup]
    · have hne : (a == p1) = false := by
        rw [beq_eq_false_iff_ne]
        intro heq
        subst heq
        exact nd.1 (List.mem_map.mpr ⟨(a, b), h, rfl⟩)
      simp only [List.lookup, hne]
      exact ih nd.2 h

theorem featureColorGet_eq_of_mem {f : String} {c : Color}
    (h : (f, c) ∈ FEATURE_COLORS) : featureColorGet f = c := by
  rw [featureColorGet, lookup_of_mem_of_nodup (by decide) h]
  rfl

theorem featureColorGet_eq_fallback {f : String}
    (h : f ∉ FEATURE_COLORS.map Prod.fst) : featureColorGet f = (200, 200, 200) := by
  simp only [FEATURE_COLORS, List.map_cons, List.map_nil, List.mem_cons,
    List.not_mem_nil, or_false, not_or] at h
  obtain ⟨h1, h2, h3, h4, h5, h6, h7, h8, h9⟩ := h
  simp [featureColorGet, FEATURE_COLORS, List.lookup,
    beq_eq_false_iff_ne.mpr h1, beq_eq_false_iff_ne.mpr h2, beq_eq_false_iff_ne.mpr h3,
    beq_eq_false_iff_ne.mpr h4, beq_eq_false_iff_ne.mpr h5, beq_eq_false_iff_ne.mpr h6,
    beq_eq_false_iff_ne.mpr h7, beq_eq_false_iff_ne.mpr h8, beq_eq_false_iff_ne.mpr h9]

/-! ## Claims -/

/-- C9: Horizontal mirroring is an involution — flipping a frame twice
(`cv2.flip(·, 1)`) yields a frame whose pixel arrangement is identical to
the original. -/
theorem flip_involution (img : Image) : cvFlip1 (cvFlip1 img) = img := by
  simp [cvFlip1, List.map_map, Function.comp_def]

/-- C1: For every detected face box and frame dimensions, the rectangle
actually passed to `cv2.rectangle` — the box expanded by 20 pixels on each
side and clamped — satisfies `0 ≤ left ≤ right ≤ w` and
`0 ≤ top ≤ bottom ≤ h`, provided the input box's coordinates lie within the
frame (also when the unpadded box touches or exceeds the frame edge). -/
theorem clamped_rect_in_bounds (w h : Int) (faces : List FaceBox) (b : FaceBox)
    (hmem : b ∈ faces)
    (hl0 : 0 ≤ b.left) (hlr : b.left ≤ b.right) (hrw : b.right ≤ w)
    (ht0 : 0 ≤ b.top) (htb : b.top ≤ b.bottom) (hbh : b.bottom ≤ h) :
    DrawCmd.rectangle ((clampedRect w h b).left, (clampedRect w h b).top)
        ((clampedRect w h b).right, (clampedRect w h b).bottom) (0, 150, 0) 2
      ∈ boxDrawCmds w h faces ∧
    0 ≤ (clampedRect w h b).left ∧
    (clampedRect w h b).left ≤ (clampedRect w h b).right ∧
    (clampedRect w h b).right ≤ w ∧
    0 ≤ (clampedRect w h b).top ∧
    (clampedRect w h b).top ≤ (clampedRect w h b).bottom ∧
    (clampedRect w h b).bottom ≤ h := by
  refine ⟨?_, ?_, ?_, ?_, ?_, ?_, ?_⟩
  · exact List.mem_map_of_mem _ hmem
  all_goals simp only [clampedRect, padding]
  all_goals omega

/-- Witness for C1 at the spec's example box (top 10, right 100, bottom 100,
left 10) in a 640 × 480 frame. -/
theorem clamped_rect_in_bounds_witness :
    DrawCmd.rectangle ((clampedRect 640 480 ⟨10, 100, 100, 10⟩).left,
        (clampedRect 640 480 ⟨10, 100, 100, 10⟩).top)
        ((clampedRect 640 480 ⟨10, 100, 100, 10⟩).right,
        (clampedRect 640 480 ⟨10, 100, 100, 10⟩).bottom) (0, 150, 0) 2
      ∈ boxDrawCmds 640 480 [⟨10, 100, 100, 10⟩] ∧
    0 ≤ (clampedRect 640 480 ⟨10, 100, 100, 10⟩).left ∧
    (clampedRect 640 480 ⟨10, 100, 100, 10⟩).left ≤
      (clampedRect 640 480 ⟨10, 100, 100, 10⟩).right ∧
    (clampedRect 640 480 ⟨10, 100, 100, 10⟩).right ≤ 640 ∧
    0 ≤ (clampedRect 640 480 ⟨10, 100, 100, 10⟩).top ∧
    (clampedRect 640 480 ⟨10, 100, 100, 10⟩).top ≤
      (clampedRect 640 480 ⟨10, 100, 100, 10⟩).bottom ∧
    (clampedRect 640 480 ⟨10, 100, 100, 10⟩).bottom ≤ 480 :=
  clamped_rect_in_bounds 640 480 [⟨10, 100, 100, 10⟩] ⟨10, 100, 100, 10⟩
    (by decide) (by decide) (by decide) (by decide) (by decide) (by decide) (by decide)

/-- C4: `draw_face_landmarks` draws each point of every feature group of
every landmark set as a filled circle of radius 2, whose color is exactly
the `FEATURE_COLORS` entry for that feature name when present, and exactly
the fallback gray (200, 200, 200) when absent. -/
theorem draw_landmarks_colors (fll : List LandmarkSet) (lm : LandmarkSet)
    (f : String) (pts : List Point) (p : Point)
    (hlm : lm ∈ fll) (hfp : (f, pts) ∈ lm) (hp : p ∈ pts) :
    DrawCmd.circle p 2 (featureColorGet f) (-1) ∈ draw_face_landmarks_cmds fll ∧
    (∀ c : Color, (f, c) ∈ FEATURE_COLORS → featureColorGet f = c) ∧
    (f ∉ FEATURE_COLORS.map Prod.fst → featureColorGet f = (200, 200, 200)) := by
  refine ⟨?_, fun c hc => featureColorGet_eq_of_mem hc,
    fun hf => featureColorGet_eq_fallback hf⟩
  simp only [draw_face_landmarks_cmds, List.mem_flatMap, List.mem_map]
  exact ⟨lm, hlm, (f, pts), hfp, p, hp, rfl⟩

/-- Witness for C4: a present name ("left_eye") and an absent name
("forehead"), each on a one-point group. -/
theorem draw_landmarks_colors_witness :
    (DrawCmd.circle ((20 : Int), (20 : Int)) 2 (featureColorGet "left_eye") (-1) ∈
        draw_face_landmarks_cmds [[("left_eye", [((20 : Int), (20 : Int))])]] ∧
      (∀ c : Color, ("left_eye", c) ∈ FEATURE_COLORS → featureColorGet "left_eye" = c) ∧
      ("left_eye" ∉ FEATURE_COLORS.map Prod.fst →
        featureColorGet "left_eye" = (200, 200, 200))) ∧
    (DrawCmd.circle ((3 : Int), (4 : Int)) 2 (featureColorGet "forehead") (-1) ∈
        draw_face_landmarks_cmds [[("forehead", [((3 : Int), (4 : Int))])]] ∧
      (∀ c : Color, ("forehead", c) ∈ FEATURE_COLORS → featureColorGet "forehead" = c) ∧
      ("forehead" ∉ FEATURE_COLORS.map Prod.fst →
        featureColorGet "forehead" = (200, 200, 200))) :=
  ⟨draw_landmarks_colors [[("left_eye", [(20, 20)])]] [("left_eye", [(20, 20)])]
      "left_eye" [(20, 20)] (20, 20) (by decide) (by decide) (by decide),
   draw_landmarks_colors [[("forehead", [(3, 4)])]] [("forehead", [(3, 4)])]
      "forehead" [(3, 4)] (3, 4) (by decide) (by decide) (by decide)⟩

theorem length_mapFromIdx (f : Nat → α → β) (i : Nat) (l : List α) :
    (mapFromIdx f i l).length = l.length := by
  induction l generalizing i with
  | nil => rfl
  | cons a as ih => simp [mapFromIdx, ih]

theorem map_length_mapFromIdx (g : Nat → List Pixel → List Pixel)
    (hg : ∀ i r, (g i r).length = r.length) (i : Nat) (l : Image) :
    (mapFromIdx g i l).map List.length = l.map List.length := by
  induction l generalizing i with
  | nil => rfl
  | cons a as ih => simp [mapFromIdx, hg, ih]

theorem rowLengths_modifyPixels (f : Nat → Nat → Pixel → Pixel) (img : Image) :
    (modifyPixels f img).map List.length = img.map List.length :=
  map_length_mapFromIdx _ (fun _ r => length_mapFromIdx _ 0 r) 0 img

theorem rowLengths_applyCmd (img : Image) (c : DrawCmd) :
    (applyCmd img c).map List.length = img.map List.length := by
  cases c with
  | circle ctr r col t =>
      obtain ⟨cx, cy⟩ := ctr
      exact rowLengths_modifyPixels _ img
  | rectangle p1 p2 col t =>
      obtain ⟨x1, y1⟩ := p1
      obtain ⟨x2, y2⟩ := p2
      exact rowLengths_modifyPixels _ img
  | putText _ _ _ _ _ _ => rfl

theorem rowLengths_applyCmds (img : Image) (cmds : List DrawCmd) :
    (applyCmds img cmds).map List.length = img.map List.length := by
  induction cmds generalizing img with
  | nil => rfl
  | cons c cs ih =>
      calc (applyCmds img (c :: cs)).map List.length
          = (applyCmds (applyCmd img c) cs).map List.length := rfl
        _ = (applyCmd img c).map List.length := ih _
        _ = img.map List.length := rowLengths_applyCmd img c

theorem length_applyCmds (img : Image) (cmds : List DrawCmd) :
    (applyCmds img cmds).length = img.length := by
  have h := congrArg List.length (rowLengths_applyCmds img cmds)
  simpa using h

theorem rowLength_of_mem_applyCmds {img : Image} {cmds : List DrawCmd}
    {row : List Pixel} (wr : Nat) (hmem : row ∈ applyCmds img cmds)
    (hw : ∀ r ∈ img, r.length = wr) : row.length = wr := by
  have h1 : row.length ∈ (applyCmds img cmds).map List.length :=
    List.mem_map_of_mem _ hmem
  rw [rowLengths_applyCmds] at h1
  obtain ⟨r, hr, he⟩ := List.mem_map.mp h1
  rw [← he]
  exact hw r hr

/-- C7: For every frame height, the legend drawing issues exactly one
labeled entry per `FEATURE_COLORS` entry (9 entries) in the table's order:
entry `i` is a filled circle and a text label in that entry's color at
vertical offset `30 * (i + 1)` (first row at 30, each subsequent row 30
below the previous), on a panel whose background is uniformly
(30, 30, 30). -/
theorem legend_entries (hgt : Nat) :
    FEATURE_COLORS.length = 9 ∧
    add_legend_panel_cmds.length = 2 * FEATURE_COLORS.length ∧
    (∀ (i : Nat) (f : String) (c : Color), FEATURE_COLORS[i]? = some (f, c) →
      add_legend_panel_cmds[2 * i]? =
        some (DrawCmd.circle (20, 30 * ((i : Int) + 1) - 5) 6 c (-1)) ∧
      add_legend_panel_cmds[2 * i + 1]? =
        some (DrawCmd.putText f (40, 30 * ((i : Int) + 1))
          FONT_HERSHEY_SIMPLEX (1 / 2) c 1)) ∧
    (∀ px ∈ (legendBase hgt).flatten, px = ([30, 30, 30] : Pixel)) := by
  refine ⟨rfl, rfl, ?_, ?_⟩
  · intro i f c hic
    have hi : i < 9 := by
      by_contra hge
      rw [List.getElem?_eq_none (by simpa [FEATURE_COLORS] using Nat.le_of_not_lt hge)] at hic
      exact Option.noConfusion hic
    interval_cases i <;>
      · simp only [FEATURE_COLORS, List.getElem?_cons_zero, List.getElem?_cons_succ,
          Option.some.injEq, Prod.mk.injEq] at hic
        obtain ⟨rfl, rfl⟩ := hic
        exact ⟨rfl, rfl⟩
  · intro px hpx
    rw [List.mem_flatten] at hpx
    obtain ⟨row, hrow, hpxr⟩ := hpx
    rw [legendBase, List.mem_replicate] at hrow
    rw [hrow.2, List.mem_replicate] at hpxr
    exact hpxr.2

/-- Witness for C7: the first legend entry at height 5 is the "chin" circle
at vertical offset 30 with color (255, 0, 0), and the base panel's pixels
are (30, 30, 30). -/
theorem legend_entries_witness :
    add_legend_panel_cmds[2 * 0]? =
      some (DrawCmd.circle (20, 30 * (((0 : Nat) : Int) + 1) - 5) 6 (255, 0, 0) (-1)) ∧
    ([30, 30, 30] : Pixel) = [30, 30, 30] :=
  ⟨((legend_entries 5).2.2.1 0 "chin" (255, 0, 0) rfl).1,
   (legend_entries 5).2.2.2 [30, 30, 30] (by
     rw [List.mem_flatten]
     refine ⟨List.replicate legend_width ([30, 30, 30] : Pixel), ?_, ?_⟩
     · rw [legendBase, List.mem_replicate]
       exact ⟨by decide, rfl⟩
     · rw [List.mem_replicate]
       exact ⟨by decide, rfl⟩)⟩

theorem hstack_row_decomp (a b : Image) (row : List Pixel) (h : row ∈ npHstack a b) :
    ∃ r1 r2, r1 ∈ a ∧ r2 ∈ b ∧ row = r1 ++ r2 := by
  induction a generalizing b with
  | nil => simp [npHstack] at h
  | cons x xs ih =>
    cases b with
    | nil => simp [npHstack] at h
    | cons y ys =>
      rw [npHstack, List.zipWith_cons_cons, List.mem_cons] at h
      rcases h with h | h
      · exact ⟨x, y, List.mem_cons_self x xs, List.mem_cons_self y ys, h⟩
      · obtain ⟨r1, r2, h1, h2, he⟩ := ih ys h
        exact ⟨r1, r2, List.mem_cons_of_mem _ h1, List.mem_cons_of_mem _ h2, he⟩

theorem hstack_getElem (a b : Image) (wa : Nat) (hwa : ∀ r ∈ a, r.length = wa) :
    ∀ i, i < a.length → i < b.length →
      ((npHstack a b)[i]?).map (List.take wa) = a[i]? ∧
      ((npHstack a b)[i]?).map (List.drop wa) = b[i]? := by
  induction a generalizing b with
  | nil => intro i hia _; simp at hia
  | cons x xs ih =>
    cases b with
    | nil => intro i _ hib; simp at hib
    | cons y ys =>
      intro i hia hib
      cases i with
      | zero =>
        rw [npHstack, List.zipWith_cons_cons]
        refine ⟨?_, ?_⟩
        · simp [List.take_left' (hwa x (List.mem_cons_self x xs))]
        · simp [List.drop_left' (hwa x (List.mem_cons_self x xs))]
      | succ n =>
        rw [npHstack, List.zipWith_cons_cons]
        simp only [List.getElem?_cons_succ]
        exact ih ys (fun r hr => hwa r (List.mem_cons_of_mem _ hr)) n
          (by simpa using hia) (by simpa using hib)

/-- C6: For every non-empty frame of height h whose rows all have width w,
`add_legend_panel` returns an image of height exactly h and width exactly
`200 + w`, with the drawn legend panel occupying the leftmost 200 columns
and the frame occupying the remaining columns. -/
theorem add_legend_panel_dims (frame : Image) (w : Nat) (_hne : frame ≠ [])
    (hw : ∀ row ∈ frame, row.length = w) :
    (add_legend_panel frame).length = frame.length ∧
    (∀ row ∈ add_legend_panel frame, row.length = legend_width + w) ∧
    (∀ i, i < frame.length →
      ((add_legend_panel frame)[i]?).map (List.take legend_width) =
        (applyCmds (legendBase frame.length) add_legend_panel_cmds)[i]? ∧
      ((add_legend_panel frame)[i]?).map (List.drop legend_width) = frame[i]?) := by
  have hLlen : (applyCmds (legendBase frame.length) add_legend_panel_cmds).length
      = frame.length := by
    rw [length_applyCmds]
    simp [legendBase]
  have hLw : ∀ r ∈ applyCmds (legendBase frame.length) add_legend_panel_cmds,
      r.length = legend_width := by
    intro r hr
    refine rowLength_of_mem_applyCmds legend_width hr ?_
    intro r2 hr2
    rw [legendBase, List.mem_replicate] at hr2
    rw [hr2.2]
    exact List.length_replicate _ _
  refine ⟨?_, ?_, ?_⟩
  · show (npHstack (applyCmds (legendBase frame.length) add_legend_panel_cmds) frame).length
        = frame.length
    simp [npHstack, hLlen]
  · intro row hrow
    obtain ⟨r1, r2, h1, h2, rfl⟩ :=
      hstack_row_decomp (applyCmds (legendBase frame.length) add_legend_panel_cmds) frame row hrow
    rw [List.length_append, hLw r1 h1, hw r2 h2]
  · intro i hi
    exact hstack_getElem (applyCmds (legendBase frame.length) add_legend_panel_cmds) frame
      legend_width hLw i (by rw [hLlen]; exact hi) hi

/-- Witness for C6 at the 1 × 1 frame `[[[0, 0, 0]]]`. -/
theorem add_legend_panel_dims_witness :
    (add_legend_panel [[[0, 0, 0]]]).length = ([[[0, 0, 0]]] : Image).length ∧
    (∀ row ∈ add_legend_panel [[[0, 0, 0]]], row.length = legend_width + 1) ∧
    (∀ i, i < ([[[0, 0, 0]]] : Image).length →
      ((add_legend_panel [[[0, 0, 0]]])[i]?).map (List.take legend_width) =
        (applyCmds (legendBase ([[[0, 0, 0]]] : Image).length) add_legend_panel_cmds)[i]? ∧
      ((add_legend_panel [[[0, 0, 0]]])[i]?).map (List.drop legend_width) =
        ([[[0, 0, 0]]] : Image)[i]?) :=
  add_legend_panel_dims [[[0, 0, 0]]] 1 (by decide) (by decide)

theorem runLoop_failed_read_cons (inp : IterInput) (rest : List IterInput)
    (hread : inp.read = none) :
    runLoop (inp :: rest) =
      (Event.readCall :: Event.printMsg warnMsg :: (runLoop rest).1, (runLoop rest).2) := by
  rw [runLoop, hread]

/-- C2: A failed camera read makes the loop print the warning and proceed
directly to the next iteration — no detection, rendering, or display events
and no camera release for that iteration — and any number `n` of
consecutive failures keeps the loop alive (the trace and outcome continue
with the remaining script). -/
theorem capture_failure_keeps_loop_alive (inp : IterInput) (hread : inp.read = none)
    (n : Nat) (rest : List IterInput) :
    runLoop (List.replicate n inp ++ rest) =
      ((List.replicate n [Event.readCall, Event.printMsg warnMsg]).flatten ++ (runLoop rest).1,
       (runLoop rest).2) ∧
    ∀ e ∈ (List.replicate n [Event.readCall, Event.printMsg warnMsg]
        : List (List Event)).flatten,
      e = Event.readCall ∨ e = Event.printMsg warnMsg := by
  constructor
  · induction n with
    | zero => simp
    | succ m ih =>
      rw [List.replicate_succ, List.cons_append, runLoop_failed_read_cons inp _ hread, ih]
      simp [List.replicate_succ]
  · intro e he
    rw [List.mem_flatten] at he
    obtain ⟨l, hl, hel⟩ := he
    rw [List.mem_replicate] at hl
    rw [hl.2, List.mem_cons, List.mem_singleton] at hel
    exact hel

/-- Witness for C2: two consecutive failed reads followed by the empty
script. -/
theorem capture_failure_keeps_loop_alive_witness :
    runLoop (List.replicate 2 ⟨none, none, [], [], 0⟩ ++ []) =
      ((List.replicate 2 [Event.readCall, Event.printMsg warnMsg]).flatten ++
        (runLoop []).1, (runLoop []).2) ∧
    ∀ e ∈ (List.replicate 2 [Event.readCall, Event.printMsg warnMsg]
        : List (List Event)).flatten,
      e = Event.readCall ∨ e = Event.printMsg warnMsg :=
  capture_failure_keeps_loop_alive ⟨none, none, [], [], 0⟩ rfl 2 []

theorem runLoop_no_cleanup (script : List IterInput) :
    Event.releaseCall ∉ (runLoop script).1 ∧
    Event.destroyAllWindowsCall ∉ (runLoop script).1 := by
  induction script with
  | nil => simp [runLoop]
  | cons inp rest ih =>
    cases hr : inp.read with
    | none =>
        rw [runLoop_failed_read_cons inp rest hr]
        simp [ih.1, ih.2]
    | some f =>
      cases he : inp.exn with
      | some e =>
          rw [runLoop, hr, he]
          simp
      | none =>
          rw [runLoop, hr, he]
          by_cases hk : inp.key > 0 <;> simp [hk, ih.1, ih.2]

/-- C3: On every exit out of the loop — key-press termination or an
unhandled exception from the body — `main` emits the camera release and the
window teardown, exactly once, after all loop events; a raised error still
propagates (and a key exit returns normally). -/
theorem cleanup_on_every_exit (script : List IterInput)
    (h : (runLoop script).2 ≠ LoopOutcome.running) :
    (mainRun true script).1 =
      (runLoop script).1 ++ [Event.releaseCall, Event.destroyAllWindowsCall] ∧
    Event.releaseCall ∉ (runLoop script).1 ∧
    Event.destroyAllWindowsCall ∉ (runLoop script).1 ∧
    (∀ e, (runLoop script).2 = LoopOutcome.raised e →
      (mainRun true script).2 = MainResult.raised e) ∧
    ((runLoop script).2 = LoopOutcome.keyExit →
      (mainRun true script).2 = MainResult.returned) := by
  refine ⟨?_, (runLoop_no_cleanup script).1, (runLoop_no_cleanup script).2, ?_, ?_⟩
  · cases ho : (runLoop script).2 with
    | running => exact absurd ho h
    | keyExit => simp [mainRun, ho]
    | raised e => simp [mainRun, ho]
  · intro e ho
    simp [mainRun, ho]
  · intro ho
    simp [mainRun, ho]

/-- Witness for C3: a one-iteration script whose key press exits the loop. -/
theorem cleanup_on_every_exit_witness :
    (mainRun true [⟨some [[[1, 2, 3]]], none, [], [], 1⟩]).1 =
      (runLoop [⟨some [[[1, 2, 3]]], none, [], [], 1⟩]).1 ++
        [Event.releaseCall, Event.destroyAllWindowsCall] ∧
    Event.releaseCall ∉ (runLoop [⟨some [[[1, 2, 3]]], none, [], [], 1⟩]).1 ∧
    Event.destroyAllWindowsCall ∉ (runLoop [⟨some [[[1, 2, 3]]], none, [], [], 1⟩]).1 ∧
    (∀ e, (runLoop [⟨some [[[1, 2, 3]]], none, [], [], 1⟩]).2 = LoopOutcome.raised e →
      (mainRun true [⟨some [[[1, 2, 3]]], none, [], [], 1⟩]).2 = MainResult.raised e) ∧
    ((runLoop [⟨some [[[1, 2, 3]]], none, [], [], 1⟩]).2 = LoopOutcome.keyExit →
      (mainRun true [⟨some [[[1, 2, 3]]], none, [], [], 1⟩]).2 = MainResult.returned) :=
  cleanup_on_every_exit [⟨some [[[1, 2, 3]]], none, [], [], 1⟩] (by decide)

/-- C5 (amended): if the camera cannot be opened at startup, the program
prints the single error message and returns without ever entering the
capture loop (no read events); the implied process exit status is 0 — the
success status — so failure is signaled only through the printed message. -/
theorem camera_open_failure_exits (script : List IterInput) :
    mainRun false script = ([Event.printMsg cameraErrMsg], MainResult.returned) ∧
    Event.readCall ∉ (mainRun false script).1 ∧
    exitCode (mainRun false script).2 = some 0 := by
  refine ⟨rfl, ?_, rfl⟩
  rw [show (mainRun false script).1 = [Event.printMsg cameraErrMsg] from rfl]
  simp

/-- C5 counterexample: with the camera unavailable the program does print
the error message, but the implied process exit status equals `some 0`
(the success status), so the termination is not nonzero-intent. -/
theorem camera_open_failure_exit_zero :
    (mainRun false []).1 = [Event.printMsg cameraErrMsg] ∧
    ¬ exitCode (mainRun false []).2 ≠ some 0 :=
  ⟨rfl, fun hne => hne rfl⟩

/-- C8: in every successful, non-raising iteration, the frame handed to both
detector calls is the captured frame flipped horizontally first and then
converted from BGR to RGB; both calls receive the same converted image,
and they are the first processing events after the read. -/
theorem detectors_receive_flipped_rgb (inp : IterInput) (f : Image)
    (rest : List IterInput) (hread : inp.read = some f) (hexn : inp.exn = none) :
    ((runLoop (inp :: rest)).1).take 3 =
      [Event.readCall, Event.faceLocationsCall (bgrToRgb (cvFlip1 f)),
       Event.faceLandmarksCall (bgrToRgb (cvFlip1 f))] := by
  rw [runLoop, hread, hexn]
  by_cases hk : inp.key > 0 <;> simp [hk]

/-- Witness for C8 at a concrete 1 × 2 frame. -/
theorem detectors_receive_flipped_rgb_witness :
    ((runLoop ((⟨some [[[1, 2, 3], [4, 5, 6]]], none, [], [], 1⟩ : IterInput) :: [])).1).take 3 =
      [Event.readCall,
       Event.faceLocationsCall (bgrToRgb (cvFlip1 [[[1, 2, 3], [4, 5, 6]]])),
       Event.faceLandmarksCall (bgrToRgb (cvFlip1 [[[1, 2, 3], [4, 5, 6]]]))] :=
  detectors_receive_flipped_rgb ⟨some [[[1, 2, 3], [4, 5, 6]]], none, [], [], 1⟩
    [[[1, 2, 3], [4, 5, 6]]] [] rfl rfl

/-- C10: when the detectors return no faces and no landmark sets, the
box-drawing and landmark-drawing stages leave the mirrored frame unchanged,
and the displayed composite is exactly the legend panel horizontally
concatenated with the unmodified mirrored frame. -/
theorem empty_detections_frame_unchanged (inp : IterInput) (f : Image)
    (rest : List IterInput) (hread : inp.read = some f) (hexn : inp.exn = none)
    (hfaces : inp.faces = []) (hlms : inp.landmarks = []) :
    applyCmds (cvFlip1 f)
        (boxDrawCmds (((cvFlip1 f).headD []).length : Int) ((cvFlip1 f).length : Int)
          inp.faces) = cvFlip1 f ∧
    draw_face_landmarks (cvFlip1 f) inp.landmarks = cvFlip1 f ∧
    add_legend_panel (cvFlip1 f) =
      npHstack (applyCmds (legendBase (cvFlip1 f).length) add_legend_panel_cmds)
        (cvFlip1 f) ∧
    Event.imshow windowTitle (add_legend_panel (cvFlip1 f)) ∈ (runLoop (inp :: rest)).1 := by
  refine ⟨by rw [hfaces]; rfl, by rw [hlms]; rfl, rfl, ?_⟩
  rw [runLoop, hread, hexn]
  by_cases hk : inp.key > 0 <;>
    simp [hk, hfaces, hlms, boxDrawCmds, applyCmds, draw_face_landmarks,
      draw_face_landmarks_cmds]

/-- Witness for C10 at a concrete 1 × 2 frame with no detections. -/
theorem empty_detections_frame_unchanged_witness :
    applyCmds (cvFlip1 [[[1, 2, 3], [4, 5, 6]]])
        (boxDrawCmds (((cvFlip1 [[[1, 2, 3], [4, 5, 6]]]).headD []).length : Int)
          ((cvFlip1 [[[1, 2, 3], [4, 5, 6]]]).length : Int)
          (⟨some [[[1, 2, 3], [4, 5, 6]]], none, [], [], 0⟩ : IterInput).faces) =
      cvFlip1 [[[1, 2, 3], [4, 5, 6]]] ∧
    draw_face_landmarks (cvFlip1 [[[1, 2, 3], [4, 5, 6]]])
        (⟨some [[[1, 2, 3], [4, 5, 6]]], none, [], [], 0⟩ : IterInput).landmarks =
      cvFlip1 [[[1, 2, 3], [4, 5, 6]]] ∧
    add_legend_panel (cvFlip1 [[[1, 2, 3], [4, 5, 6]]]) =
      npHstack (applyCmds (legendBase (cvFlip1 [[[1, 2, 3], [4, 5, 6]]]).length)
        add_legend_panel_cmds) (cvFlip1 [[[1, 2, 3], [4, 5, 6]]]) ∧
    Event.imshow windowTitle (add_legend_panel (cvFlip1 [[[1, 2, 3], [4, 5, 6]]])) ∈
      (runLoop ((⟨some [[[1, 2, 3], [4, 5, 6]]], none, [], [], 0⟩ : IterInput) :: [])).1 :=
  empty_detections_frame_unchanged ⟨some [[[1, 2, 3], [4, 5, 6]]], none, [], [], 0⟩
    [[[1, 2, 3], [4, 5, 6]]] [] rfl rfl rfl rfl
